import Mathlib

/-!
Verification of the Gadgetbridge-to-MQTT publisher (`main.py`) against its
natural-language specification.

The program reads sensor values from a Gadgetbridge SQLite database and
publishes them over MQTT.  The embedding below models, directly from the
source:

* the database snapshot (`DB`) with the five queried tables plus the device
  table, columns restricted to those the program reads; nullable columns are
  `Option`-valued;
* the twelve SQL queries (`query_daily_steps` .. `query_total_sleep_duration`),
  with `SELECT .. ORDER BY TIMESTAMP DESC LIMIT 1` modelled by
  `latestByTimestamp` and `SUM(..)` by `sqlSum` (SQLite `sum` is NULL iff
  there is no non-NULL input value);
* the sensor registry (`sensors`), the fault-isolated extraction executor
  (`get_sensor_data`), the value publisher (`publish_sensor_data`), the
  device-alias resolver (`get_device_alias`) and the Home Assistant
  discovery pass (`setup_home_assistant_entities`).

Runtime failure points that the Python code guards with `try`/`except`
(missing database file, failing `sqlite3.connect`, failing `conn.cursor()`,
a sensor query raising) are modelled by boolean failure flags in `Env`;
clock-dependent range bounds (`datetime.now()` arithmetic) are modelled by
the `Time` parameter carrying the four computed epoch bounds.  String and
character operations model CPython semantics on ASCII data (`re.sub` with
the word-character class, `str.lower`, `str.title`, `str.replace` on a
one-character pattern, `json.dumps` with default separators).  Python's
`round(x, 2)` on the float `minutes / 60` is modelled exactly by rational
round-half-to-even (`pyRound2`): the scaled value `minutes * 100 / 60` has
denominator 1 or 3, so it is never a decimal half-way case and no
float-versus-rational divergence can occur for integer minute counts.
-/

/-- Floor of a rational, computably (`Int.fdiv` is floor division). -/
def ratFloor (q : ℚ) : Int := Int.fdiv q.num q.den

/-- Python `round(q, 2)`: round to 2 decimal places, ties to even. -/
def pyRound2 (q : ℚ) : ℚ :=
  let f : Int := ratFloor (q * 100)
  let r : ℚ := q * 100 - f
  (if r < 1/2 then (f : ℚ)
   else if 1/2 < r then (f : ℚ) + 1
   else if f % 2 = 0 then (f : ℚ) else (f : ℚ) + 1) / 100

/-- Does the second list start with the first? -/
def listStartsWith : List Char → List Char → Bool
  | [], _ => true
  | _ :: _, [] => false
  | p :: ps, c :: cs => p == c && listStartsWith ps cs

/-- Substring containment on character lists (SQL `LIKE '%pat%'`). -/
def containsSub (pat : List Char) : List Char → Bool
  | [] => listStartsWith pat []
  | c :: cs => listStartsWith pat (c :: cs) || containsSub pat cs

/-- ASCII lower-casing of a string (SQL `LOWER`, Python `str.lower`). -/
def lowerStr (s : String) : String := String.mk (s.data.map Char.toLower)

/-- One row of `XIAOMI_ACTIVITY_SAMPLE` (columns the program reads). -/
structure ActivitySample where
  timestamp : Int
  steps : Option Int
  heart_rate : Option Int
deriving DecidableEq

/-- One row of `BATTERY_LEVEL`. -/
structure BatterySample where
  timestamp : Int
  level : Option Int
deriving DecidableEq

/-- One row of `MI_SCALE_WEIGHT_SAMPLE`. -/
structure WeightSample where
  timestamp : Int
  weight_kg : Option ℚ
deriving DecidableEq

/-- One row of `XIAOMI_DAILY_SUMMARY_SAMPLE` (columns the program reads). -/
structure DailySummarySample where
  timestamp : Int
  hr_resting : Option Int
  hr_max : Option Int
  hr_avg : Option Int
  calories : Option Int
deriving DecidableEq

/-- One row of `XIAOMI_SLEEP_TIME_SAMPLE` (columns the program reads). -/
structure SleepSample where
  timestamp : Int
  is_awake : Option Int
  total_duration : Option Int
deriving DecidableEq

/-- One row of `DEVICE` (columns the program reads; the `ALIAS` column is
called `aliasStr` because `alias` is reserved in Lean). -/
structure DeviceRow where
  name : Option String
  aliasStr : Option String
deriving DecidableEq

/-- Snapshot of the SQLite database: the six tables the program queries. -/
structure DB where
  activity : List ActivitySample
  battery : List BatterySample
  weight : List WeightSample
  summary : List DailySummarySample
  sleep : List SleepSample
  device : List DeviceRow
deriving DecidableEq

/-- `SELECT .. ORDER BY TIMESTAMP DESC LIMIT 1`: a row of maximal
timestamp, or `none` on an empty table. -/
def latestByTimestamp {α : Type} (ts : α → Int) : List α → Option α
  | [] => none
  | x :: xs =>
    match latestByTimestamp ts xs with
    | none => some x
    | some y => if ts x < ts y then some y else some x

/-- SQLite `SUM` over a nullable integer column: NULL when there is no
non-NULL input value, otherwise the sum of the non-NULL values. -/
def sqlSum (xs : List (Option Int)) : Option Int :=
  let vs := xs.filterMap id
  if vs.isEmpty then none else some (vs.foldl (fun a b => a + b) 0)

/-- Scalar values the sensor queries produce (Python int / bool / float). -/
inductive Value where
  | int : Int → Value
  | bool : Bool → Value
  | rat : ℚ → Value
deriving DecidableEq

/-- The four clock-derived epoch bounds the step queries compute from
`datetime.now()`: start/end of today, start of the Monday-anchored week,
start of the month. -/
structure Time where
  todayStart : Int
  todayEnd : Int
  weekStart : Int
  monthStart : Int
deriving DecidableEq

/-- Python `x or 0` applied to a nullable aggregate: `None` becomes `0`
(and `0` stays `0`, so on integers this is exactly the default). -/
def pyOrZero : Option Int → Int
  | none => 0
  | some v => v

/-- `query_daily_steps`: sum of steps with timestamp in
`[today_start, today_end]`, NULL sum coerced to 0. -/
def query_daily_steps (t : Time) (db : DB) : Option Value :=
  let rows := db.activity.filter fun r =>
    decide (t.todayStart ≤ r.timestamp) && decide (r.timestamp ≤ t.todayEnd)
  some (Value.int (pyOrZero (sqlSum (rows.map fun r => r.steps))))

/-- `query_weekly_steps`: sum of steps with timestamp `≥ week_start`,
NULL sum coerced to 0. -/
def query_weekly_steps (t : Time) (db : DB) : Option Value :=
  let rows := db.activity.filter fun r => decide (t.weekStart ≤ r.timestamp)
  some (Value.int (pyOrZero (sqlSum (rows.map fun r => r.steps))))

/-- `query_monthly_steps`: sum of steps with timestamp `≥ month_start`,
NULL sum coerced to 0. -/
def query_monthly_steps (t : Time) (db : DB) : Option Value :=
  let rows := db.activity.filter fun r => decide (t.monthStart ≤ r.timestamp)
  some (Value.int (pyOrZero (sqlSum (rows.map fun r => r.steps))))

/-- `query_battery_level`: latest battery row's LEVEL, `None` when the
table is empty (and when the stored level is NULL). -/
def query_battery_level (db : DB) : Option Value :=
  match latestByTimestamp (fun r => r.timestamp) db.battery with
  | none => none
  | some row => row.level.map Value.int

/-- `query_latest_weight`: latest scale row's WEIGHT_KG. -/
def query_latest_weight (db : DB) : Option Value :=
  match latestByTimestamp (fun r => r.timestamp) db.weight with
  | none => none
  | some row => row.weight_kg.map Value.rat

/-- `query_latest_heart_rate`: latest activity row's HEART_RATE. -/
def query_latest_heart_rate (db : DB) : Option Value :=
  match latestByTimestamp (fun r => r.timestamp) db.activity with
  | none => none
  | some row => row.heart_rate.map Value.int

/-- `query_hr_resting`: latest daily-summary row's HR_RESTING. -/
def query_hr_resting (db : DB) : Option Value :=
  match latestByTimestamp (fun r => r.timestamp) db.summary with
  | none => none
  | some row => row.hr_resting.map Value.int

/-- `query_hr_max`: latest daily-summary row's HR_MAX. -/
def query_hr_max (db : DB) : Option Value :=
  match latestByTimestamp (fun r => r.timestamp) db.summary with
  | none => none
  | some row => row.hr_max.map Value.int

/-- `query_hr_avg`: latest daily-summary row's HR_AVG. -/
def query_hr_avg (db : DB) : Option Value :=
  match latestByTimestamp (fun r => r.timestamp) db.summary with
  | none => none
  | some row => row.hr_avg.map Value.int

/-- `query_calories`: latest daily-summary row's CALORIES. -/
def query_calories (db : DB) : Option Value :=
  match latestByTimestamp (fun r => r.timestamp) db.summary with
  | none => none
  | some row => row.calories.map Value.int

/-- Python truthiness of a nullable integer column value:
`bool(None) = False`, `bool(n) = (n ≠ 0)`. -/
def pyTruthyInt : Option Int → Bool
  | none => false
  | some n => decide (n ≠ 0)

/-- `query_is_awake`: latest sleep row's IS_AWAKE, negated
(`not bool(row[0])`); `None` only when the table is empty. -/
def query_is_awake (db : DB) : Option Value :=
  match latestByTimestamp (fun r => r.timestamp) db.sleep with
  | none => none
  | some row => some (Value.bool (! pyTruthyInt row.is_awake))

/-- `query_total_sleep_duration`: latest sleep row's TOTAL_DURATION in
minutes, divided by 60 and rounded to 2 decimals; `None` when the table is
empty or the stored duration is NULL. -/
def query_total_sleep_duration (db : DB) : Option Value :=
  match latestByTimestamp (fun r => r.timestamp) db.sleep with
  | none => none
  | some row => row.total_duration.map fun m => Value.rat (pyRound2 ((m : ℚ) / 60))

/-- One entry of `self.sensors`: display metadata plus the bound query.
Optional metadata fields are `Option`-valued (key absent from the dict). -/
structure Sensor where
  name : String
  unique_id : String
  state_topic : String
  query : Time → DB → Option Value
  unit_of_measurement : Option String
  icon : Option String
  state_class : Option String
  device_class : Option String

/-- The sensor registry `self.sensors`, built from the resolved device
slug; entries in source order with their literal metadata. -/
def sensors (slug : String) : List Sensor :=
  [⟨"Daily Steps", "daily_steps", "gadgetbridge/" ++ slug ++ "/steps/daily",
    query_daily_steps, some "steps", some "mdi:walk", some "total_increasing", none⟩,
   ⟨"Weekly Steps", "weekly_steps", "gadgetbridge/" ++ slug ++ "/steps/weekly",
    query_weekly_steps, some "steps", some "mdi:walk", some "total", none⟩,
   ⟨"Monthly Steps", "monthly_steps", "gadgetbridge/" ++ slug ++ "/steps/monthly",
    query_monthly_steps, some "steps", some "mdi:walk", some "total", none⟩,
   ⟨"Battery Level", "battery_level", "gadgetbridge/" ++ slug ++ "/battery",
    fun _ db => query_battery_level db, some "%", some "mdi:battery", none, some "battery"⟩,
   ⟨"Weight", "weight", "gadgetbridge/" ++ slug ++ "/weight",
    fun _ db => query_latest_weight db, some "kg", some "mdi:scale-bathroom",
    some "measurement", none⟩,
   ⟨"Latest Heart Rate", "latest_heart_rate", "gadgetbridge/" ++ slug ++ "/heart_rate",
    fun _ db => query_latest_heart_rate db, some "bpm", some "mdi:heart-pulse",
    some "measurement", none⟩,
   ⟨"Resting Heart Rate", "hr_resting", "gadgetbridge/" ++ slug ++ "/hr_resting",
    fun _ db => query_hr_resting db, some "bpm", some "mdi:heart-pulse",
    some "measurement", none⟩,
   ⟨"Max Heart Rate", "hr_max", "gadgetbridge/" ++ slug ++ "/hr_max",
    fun _ db => query_hr_max db, some "bpm", some "mdi:heart-pulse",
    some "measurement", none⟩,
   ⟨"Average Heart Rate", "hr_avg", "gadgetbridge/" ++ slug ++ "/hr_avg",
    fun _ db => query_hr_avg db, some "bpm", some "mdi:heart-pulse",
    some "measurement", none⟩,
   ⟨"Calories", "calories", "gadgetbridge/" ++ slug ++ "/calories",
    fun _ db => query_calories db, some "kcal", some "mdi:fire",
    some "total_increasing", none⟩,
   ⟨"Is Awake", "is_awake", "gadgetbridge/" ++ slug ++ "/is_awake",
    fun _ db => query_is_awake db, none, some "mdi:power-sleep", none, some "enum"⟩,
   ⟨"Total Sleep Duration", "total_sleep_duration",
    "gadgetbridge/" ++ slug ++ "/total_sleep_duration",
    fun _ db => query_total_sleep_duration db, some "h", some "mdi:sleep",
    some "measurement", none⟩]

/-- One extraction run's environment: the database snapshot, the computed
clock bounds, and boolean flags for each runtime failure point the Python
code guards (`os.path.exists`, `sqlite3.connect`, `conn.cursor()`, and a
per-sensor oracle saying whose query raises). -/
structure Env where
  fileExists : Bool
  connectOk : Bool
  cursorOk : Bool
  queryFails : String → Bool
  time : Time
  db : DB

/-- `get_sensor_data`: the fault-isolated extraction executor.  Missing
file, failing connect or failing cursor creation yield the empty dict;
otherwise one entry per registry sensor, `None` for a sensor whose query
raised, the query's value for the rest.  Entries are listed in registry
order, matching Python dict insertion order. -/
def get_sensor_data (slug : String) (env : Env) : List (String × Option Value) :=
  if env.fileExists = false then []
  else if env.connectOk = false then []
  else if env.cursorOk = false then []
  else (sensors slug).map fun sen =>
    (sen.unique_id,
     if env.queryFails sen.unique_id = true then none else sen.query env.time env.db)

/-- How many store connections `get_sensor_data` opens in this run:
`sqlite3.connect` succeeds exactly when the file exists and connecting
does not raise. -/
def gsd_opens (env : Env) : Nat :=
  if env.fileExists = true && env.connectOk = true then 1 else 0

/-- How many times `get_sensor_data` calls `conn.close()` in this run: the
single `conn.close()` is reached only when the file existed, the connect
succeeded and `conn.cursor()` succeeded (a cursor failure jumps to the
outer `except`, skipping the close). -/
def gsd_closes (env : Env) : Nat :=
  if env.fileExists = true && env.connectOk = true && env.cursorOk = true then 1 else 0

/-- Python `data.get(k)`: `None` both when the key is missing and when the
stored value is `None`. -/
def dictGet (data : List (String × Option Value)) (k : String) : Option Value :=
  match data.find? (fun p => p.1 == k) with
  | none => none
  | some p => p.2

/-- Python `str(int)` / `str(bool)` / `str(float)` rendering of the float
values this program produces (all either integral or produced by
`round(_, 2)`, hence with denominator dividing 100): sign, integer part,
then the fractional part with a trailing zero trimmed but at least one
fractional digit kept. -/
def pyFloatRepr (q : ℚ) : String :=
  let sign := if q < 0 then "-" else ""
  let a : ℚ := |q|
  let w : Int := ratFloor a
  let cents : Int := ratFloor ((a - w) * 100)
  if cents = 0 then sign ++ toString w ++ ".0"
  else if cents % 10 = 0 then sign ++ toString w ++ "." ++ toString (cents / 10)
  else if cents < 10 then sign ++ toString w ++ ".0" ++ toString cents
  else sign ++ toString w ++ "." ++ toString cents

/-- Python `str(value)` for the scalar values the queries return. -/
def pyStr : Value → String
  | Value.int n => toString n
  | Value.bool b => if b then "True" else "False"
  | Value.rat q => pyFloatRepr q

/-- One MQTT publish call: topic, payload, qos, retain flag. -/
structure PubMsg where
  topic : String
  payload : String
  qos : Nat
  retain : Bool
deriving DecidableEq

/-- `publish_sensor_data`: for each registry sensor, `data.get(unique_id)`;
publish `str(value)` to the sensor's state topic with qos 1 and the
default (cleared) retain flag when the value is not `None`, else skip. -/
def publish_sensor_data (slug : String) (data : List (String × Option Value)) :
    List PubMsg :=
  (sensors slug).filterMap fun sen =>
    (dictGet data sen.unique_id).map fun v =>
      PubMsg.mk sen.state_topic (pyStr v) 1 false

/-- One iteration of the body of `run`: extract, then publish. -/
def run_cycle (slug : String) (env : Env) : List PubMsg :=
  publish_sensor_data slug (get_sensor_data slug env)

/-- Python `re.sub` with the pattern matching one-or-more non-word
characters, replacement a single underscore, on ASCII text: a word
character passes through, a maximal run of non-word characters becomes one
underscore (`inRun` records whether the previous character was part of
such a run). -/
def subNonWordRuns : List Char → Bool → List Char
  | [], _ => []
  | c :: cs, inRun =>
    if c.isAlphanum || c == '_' then c :: subNonWordRuns cs false
    else if inRun then subNonWordRuns cs true
    else '_' :: subNonWordRuns cs true

/-- The alias sanitization in `get_device_alias`: collapse runs of
non-word characters to `_`, then lower-case. -/
def sanitizeAlias (a : String) : String :=
  lowerStr (String.mk (subNonWordRuns a.data false))

/-- Run-collapsing where only alphanumeric characters pass through. -/
def specCollapseRuns : List Char → Bool → List Char
  | [], _ => []
  | c :: cs, inRun =>
    if c.isAlphanum then c :: specCollapseRuns cs false
    else if inRun then specCollapseRuns cs true
    else '_' :: specCollapseRuns cs true

/-- Modelled from the spec: the sanitization as the specification words
it — "any run of non-alphanumeric characters is collapsed to a single
separator and the result lowercased".  Differs from the code in that the
underscore counts as non-alphanumeric here. -/
def specSanitizeAlias (a : String) : String :=
  lowerStr (String.mk (specCollapseRuns a.data false))

/-- The `WHERE LOWER(NAME) LIKE '%band%' OR LOWER(NAME) LIKE '%watch%'`
row filter; a NULL name matches neither pattern. -/
def deviceNameMatches (d : DeviceRow) : Bool :=
  match d.name with
  | none => false
  | some n =>
    containsSub "band".data (lowerStr n).data || containsSub "watch".data (lowerStr n).data

/-- `get_device_alias`: resolve the device slug from the DEVICE table.
`fileOk` models `os.path.exists`, `queryOk` models the whole
connect-and-query block not raising; every failure, a missing matching
row, and a NULL or empty alias fall back to `"fitness_tracker"`. -/
def get_device_alias (fileOk queryOk : Bool) (db : DB) : String :=
  if fileOk = false then "fitness_tracker"
  else if queryOk = false then "fitness_tracker"
  else
    match db.device.find? deviceNameMatches with
    | none => "fitness_tracker"
    | some row =>
      match row.aliasStr with
      | none => "fitness_tracker"
      | some a => if a = "" then "fitness_tracker" else sanitizeAlias a

/-- Python `s.replace('_', ' ')`: the pattern is one character, so this is
a character-wise substitution. -/
def replaceUnderscoreSpace (s : String) : String :=
  String.mk (s.data.map fun c => if c == '_' then ' ' else c)

/-- Worker for Python `str.title` on ASCII text: a cased (alphabetic)
character is upper-cased at a word start and lower-cased otherwise;
`prevCased` records whether the previous character was cased. -/
def pyTitleGo : List Char → Bool → List Char
  | [], _ => []
  | c :: cs, prevCased =>
    if c.isAlpha then
      (if prevCased then c.toLower else c.toUpper) :: pyTitleGo cs true
    else c :: pyTitleGo cs false

/-- Python `str.title` on ASCII text. -/
def pyTitle (s : String) : String := String.mk (pyTitleGo s.data false)

/-- A leaf JSON value inside the nested `device` block: a string or an
array of strings (only shapes this program emits). -/
inductive JLeaf where
  | s : String → JLeaf
  | arr : List String → JLeaf
deriving DecidableEq

/-- A top-level field of a discovery config: a string or the nested
`device` object (only shapes this program emits). -/
inductive JField where
  | s : String → JField
  | o : List (String × JLeaf) → JField
deriving DecidableEq

/-- JSON string escaping as `json.dumps` performs it on the characters
this program emits (quote and backslash; no control characters occur). -/
def jsonEscape (s : String) : String :=
  String.mk (s.data.foldr
    (fun c acc =>
      (if c == '"' then ['\\', '"'] else if c == '\\' then ['\\', '\\'] else [c]) ++ acc)
    [])

/-- A JSON string literal. -/
def jsonStr (s : String) : String := "\"" ++ jsonEscape s ++ "\""

/-- Serialize a leaf value. -/
def jsonLeaf : JLeaf → String
  | JLeaf.s v => jsonStr v
  | JLeaf.arr xs => "[" ++ String.intercalate ", " (xs.map jsonStr) ++ "]"

/-- Serialize a top-level field value; objects use `json.dumps` default
separators (comma-space, colon-space). -/
def jsonField : JField → String
  | JField.s v => jsonStr v
  | JField.o kvs =>
    "\x7b" ++
      String.intercalate ", " (kvs.map fun kv => jsonStr kv.1 ++ ": " ++ jsonLeaf kv.2) ++
    "\x7d"

/-- `json.dumps` of a config dict, keys in insertion order. -/
def json_dumps (kvs : List (String × JField)) : String :=
  "\x7b" ++
    String.intercalate ", " (kvs.map fun kv => jsonStr kv.1 ++ ": " ++ jsonField kv.2) ++
  "\x7d"

/-- The `device_info` block of `setup_home_assistant_entities`. -/
def device_info (slug : String) : List (String × JLeaf) :=
  [("identifiers", JLeaf.arr [slug]),
   ("name", JLeaf.s ("Gadgetbridge " ++ pyTitle (replaceUnderscoreSpace slug))),
   ("model", JLeaf.s "Fitness Tracker"),
   ("manufacturer", JLeaf.s "Gadgetbridge")]

/-- Append `[(k, v)]` when the optional metadata value is present,
nothing otherwise (the `if key in sensor` loop). -/
def optField (k : String) : Option String → List (String × JField)
  | none => []
  | some v => [(k, JField.s v)]

/-- The discovery config dict built for one sensor, keys in insertion
order: the four fixed keys, then the optional metadata keys in the fixed
loop order. -/
def sensor_discovery_config (slug : String) (sen : Sensor) : List (String × JField) :=
  [("name", JField.s (pyTitle (replaceUnderscoreSpace slug) ++ " " ++ sen.name)),
   ("unique_id", JField.s (slug ++ "_" ++ sen.unique_id)),
   ("state_topic", JField.s sen.state_topic),
   ("device", JField.o (device_info slug))] ++
  optField "unit_of_measurement" sen.unit_of_measurement ++
  optField "icon" sen.icon ++
  optField "state_class" sen.state_class ++
  optField "device_class" sen.device_class

/-- `publish_home_assistant_discovery`: one retained qos-1 publish of the
JSON config to the discovery topic. -/
def publish_home_assistant_discovery (slug entity_type entity_id : String)
    (config : List (String × JField)) : PubMsg :=
  PubMsg.mk
    ("homeassistant/" ++ entity_type ++ "/" ++ slug ++ "_" ++ entity_id ++ "/config")
    (json_dumps config) 1 true

/-- `setup_home_assistant_entities`: the full discovery pass, one message
per registry sensor. -/
def setup_home_assistant_entities (slug : String) : List PubMsg :=
  (sensors slug).map fun sen =>
    publish_home_assistant_discovery slug "sensor" sen.unique_id
      (sensor_discovery_config slug sen)

/-- A database snapshot with every table empty. -/
def emptyDB : DB := ⟨[], [], [], [], [], []⟩

/-- Degenerate clock bounds for concrete runs. -/
def time0 : Time := ⟨0, 0, 0, 0⟩

/-- Concrete run for the executor-isolation witness: one activity sample,
and an exception injected into the latest-heart-rate query only. -/
def envIso : Env :=
  ⟨true, true, true, fun u => u == "latest_heart_rate", time0,
   ⟨[⟨0, some 7, some 80⟩], [], [], [], [], []⟩⟩

/-- Concrete run where `conn.cursor()` raises after a successful connect. -/
def envCursorFail : Env := ⟨true, true, false, fun _ => false, time0, emptyDB⟩

/-- Concrete fully-successful run over the empty database. -/
def envAllOk : Env := ⟨true, true, true, fun _ => false, time0, emptyDB⟩

/-- The single-activity-sample store of the end-to-end scenario: one
sample at today's midnight with 500 steps and a NULL heart rate, all other
tables empty. -/
def db4 : DB := ⟨[⟨1000, some 500, none⟩], [], [], [], [], []⟩

/-- Clock bounds for the end-to-end scenario: the sample's timestamp is
today's midnight, and the week and month began earlier. -/
def time4 : Time := ⟨1000, 1100, 800, 500⟩

/-- Environment of the end-to-end scenario: everything succeeds. -/
def env4 : Env := ⟨true, true, true, fun _ => false, time4, db4⟩

/-- Device table for the sanitization counterexample: the alias holds an
underscore adjacent to a non-word character. -/
def db5 : DB := ⟨[], [], [], [], [], [⟨some "Mi Band", some "a_!b"⟩]⟩

/-- Device table for the sanitization witness. -/
def db5w : DB := ⟨[], [], [], [], [], [⟨some "Mi Band 7", some "Mi Band 7!"⟩]⟩

/-- A concrete extraction result: daily steps present, battery `None`,
all other keys missing. -/
def dataW : List (String × Option Value) :=
  [("daily_steps", some (Value.int 5)), ("battery_level", none)]

/-- Store whose latest sleep row has the awake flag stored as `1`. -/
def db3 : DB := ⟨[], [], [], [], [⟨10, some 1, some 90⟩, ⟨4, some 0, some 30⟩], []⟩

/-- Store whose latest sleep row stores 125 minutes of sleep. -/
def db9 : DB := ⟨[], [], [], [], [⟨10, some 0, some 125⟩], []⟩

/-- Run whose latest sleep row has a NULL awake flag. -/
def env10 : Env :=
  ⟨true, true, true, fun _ => false, time0, ⟨[], [], [], [], [⟨5, none, none⟩], []⟩⟩

/-- The twelve state-topic path tails, in registry order. -/
def statePaths : List String :=
  ["/steps/daily", "/steps/weekly", "/steps/monthly", "/battery", "/weight",
   "/heart_rate", "/hr_resting", "/hr_max", "/hr_avg", "/calories", "/is_awake",
   "/total_sleep_duration"]

/-- The twelve sensor identifiers, in registry order. -/
def uidList : List String :=
  ["daily_steps", "weekly_steps", "monthly_steps", "battery_level", "weight",
   "latest_heart_rate", "hr_resting", "hr_max", "hr_avg", "calories", "is_awake",
   "total_sleep_duration"]

/-- Strings are equal when their character lists are equal. -/
theorem string_data_inj {a b : String} (h : a.data = b.data) : a = b := by
  cases a; cases b; exact congrArg String.mk h

/-- Appending to a fixed string on the left is injective. -/
theorem string_append_left_inj (p : String) {a b : String} (h : p ++ a = p ++ b) :
    a = b := by
  have hd : p.data ++ a.data = p.data ++ b.data := congrArg String.data h
  exact string_data_inj (List.append_cancel_left hd)

/-- Appending a fixed string on the right is injective. -/
theorem string_append_right_inj (s : String) {a b : String} (h : a ++ s = b ++ s) :
    a = b := by
  have hd : a.data ++ s.data = b.data ++ s.data := congrArg String.data h
  exact string_data_inj (List.append_cancel_right hd)

/-- The registry's sensor identifiers are pairwise distinct. -/
theorem sensors_uid_nodup (slug : String) :
    ((sensors slug).map (fun s => s.unique_id)).Nodup := by
  have he : (sensors slug).map (fun s => s.unique_id) = uidList := rfl
  rw [he]
  decide

/-- The registry's state topics are pairwise distinct for any slug. -/
theorem sensors_topic_nodup (slug : String) :
    ((sensors slug).map (fun s => s.state_topic)).Nodup := by
  have he : (sensors slug).map (fun s => s.state_topic) =
      statePaths.map (fun t => "gadgetbridge/" ++ slug ++ t) := rfl
  rw [he]
  exact List.Nodup.map (fun a b hab => string_append_left_inj _ hab) (by decide)

/-- Looking a sensor's identifier up in the entry list the executor
builds returns that sensor's entry. -/
theorem dictGet_map_registry (g : Sensor → Option Value) :
    ∀ (l : List Sensor), ((l.map fun s => s.unique_id).Nodup) →
      ∀ sen ∈ l, dictGet (l.map fun s => (s.unique_id, g s)) sen.unique_id = g sen := by
  intro l
  induction l with
  | nil => intro _ sen h; cases h
  | cons a t ih =>
    intro hnd sen hmem
    rw [List.map_cons, List.nodup_cons] at hnd
    rcases List.mem_cons.mp hmem with heq | htail
    · subst heq
      simp [dictGet, List.find?]
    · have hne2 : a.unique_id ≠ sen.unique_id := by
        intro he
        exact hnd.1 (by rw [he]; exact List.mem_map_of_mem (fun s => s.unique_id) htail)
      have hne : (a.unique_id == sen.unique_id) = false := beq_eq_false_iff_ne.mpr hne2
      simpa [dictGet, List.find?, hne] using ih hnd.2 sen htail

/-- The discovery topics are pairwise distinct for any slug. -/
theorem setup_topics_nodup (slug : String) :
    ((setup_home_assistant_entities slug).map (fun m => m.topic)).Nodup := by
  have he : (setup_home_assistant_entities slug).map (fun m => m.topic) =
      uidList.map
        (fun u => "homeassistant/" ++ "sensor" ++ "/" ++ slug ++ "_" ++ u ++ "/config") :=
    rfl
  rw [he]
  refine List.Nodup.map (fun a b hab => ?_) (by decide)
  exact string_append_left_inj _ (string_append_right_inj _ hab)

/-- C1: in a run where the database file exists and both the connection
and the cursor are obtained, a sensor whose query raises gets an absent
entry while every other sensor's entry is exactly its query's value; and
a missing file or failing connect yields the empty result.  The executor
is a total function, so it never throws outward. -/
theorem c1_executor_fault_isolation (slug : String) (env : Env) :
    ((env.fileExists = false ∨ env.connectOk = false) → get_sensor_data slug env = []) ∧
    (env.fileExists = true → env.connectOk = true → env.cursorOk = true →
      ∀ sen ∈ sensors slug,
        (env.queryFails sen.unique_id = true →
          dictGet (get_sensor_data slug env) sen.unique_id = none) ∧
        (env.queryFails sen.unique_id = false →
          dictGet (get_sensor_data slug env) sen.unique_id = sen.query env.time env.db)) := by
  constructor
  · rintro (h | h) <;> simp [get_sensor_data, h]
  · intro hf hc hk sen hmem
    have hd := dictGet_map_registry
      (fun s => if env.queryFails s.unique_id = true then none
                else s.query env.time env.db)
      (sensors slug) (sensors_uid_nodup slug) sen hmem
    have hg : get_sensor_data slug env =
        (sensors slug).map fun s =>
          (s.unique_id,
           if env.queryFails s.unique_id = true then none
           else s.query env.time env.db) := by
      simp [get_sensor_data, hf, hc, hk]
    constructor
    · intro hfail
      rw [hg, hd]
      simp [hfail]
    · intro hok
      rw [hg, hd]
      simp [hok]

/-- C1 witness: a concrete run with one activity sample in which only the
latest-heart-rate query raises; its entry is absent while the daily-steps
entry carries the sample's sum. -/
theorem c1_witness :
    dictGet (get_sensor_data "fitness_tracker" envIso) "latest_heart_rate" = none ∧
    dictGet (get_sensor_data "fitness_tracker" envIso) "daily_steps" =
      some (Value.int 7) := by
  have hhr := (c1_executor_fault_isolation "fitness_tracker" envIso).2 rfl rfl rfl
    ⟨"Latest Heart Rate", "latest_heart_rate",
     "gadgetbridge/" ++ "fitness_tracker" ++ "/heart_rate",
     fun _ db => query_latest_heart_rate db, some "bpm", some "mdi:heart-pulse",
     some "measurement", none⟩ (by simp [sensors])
  have hds := (c1_executor_fault_isolation "fitness_tracker" envIso).2 rfl rfl rfl
    ⟨"Daily Steps", "daily_steps",
     "gadgetbridge/" ++ "fitness_tracker" ++ "/steps/daily",
     query_daily_steps, some "steps", some "mdi:walk", some "total_increasing", none⟩
    (by simp [sensors])
  refine ⟨hhr.1 rfl, (hds.2 rfl).trans ?_⟩
  decide

/-- C2: every non-step query yields an absent entry when its table has no
row to return, while each of the three step queries turns a NULL aggregate
sum into the value 0. -/
theorem c2_no_row_absent_null_sum_zero (t : Time) (db : DB) :
    (db.battery = [] → query_battery_level db = none) ∧
    (db.weight = [] → query_latest_weight db = none) ∧
    (db.activity = [] → query_latest_heart_rate db = none) ∧
    (db.summary = [] → query_hr_resting db = none ∧ query_hr_max db = none ∧
      query_hr_avg db = none ∧ query_calories db = none) ∧
    (db.sleep = [] → query_is_awake db = none ∧ query_total_sleep_duration db = none) ∧
    (sqlSum (((db.activity.filter fun r =>
          decide (t.todayStart ≤ r.timestamp) && decide (r.timestamp ≤ t.todayEnd)).map
            fun r => r.steps)) = none →
      query_daily_steps t db = some (Value.int 0)) ∧
    (sqlSum ((db.activity.filter fun r => decide (t.weekStart ≤ r.timestamp)).map
        fun r => r.steps) = none →
      query_weekly_steps t db = some (Value.int 0)) ∧
    (sqlSum ((db.activity.filter fun r => decide (t.monthStart ≤ r.timestamp)).map
        fun r => r.steps) = none →
      query_monthly_steps t db = some (Value.int 0)) := by
  refine ⟨?_, ?_, ?_, ?_, ?_, ?_, ?_, ?_⟩ <;> intro h
  · simp [query_battery_level, h, latestByTimestamp]
  · simp [query_latest_weight, h, latestByTimestamp]
  · simp [query_latest_heart_rate, h, latestByTimestamp]
  · simp [query_hr_resting, query_hr_max, query_hr_avg, query_calories, h,
      latestByTimestamp]
  · simp [query_is_awake, query_total_sleep_duration, h, latestByTimestamp]
  · simp [query_daily_steps, h, pyOrZero]
  · simp [query_weekly_steps, h, pyOrZero]
  · simp [query_monthly_steps, h, pyOrZero]

/-- C2 witness: over the empty store every latest-row query is absent and
all three step queries publish the value 0. -/
theorem c2_witness :
    query_battery_level emptyDB = none ∧
    query_daily_steps time0 emptyDB = some (Value.int 0) ∧
    query_weekly_steps time0 emptyDB = some (Value.int 0) ∧
    query_monthly_steps time0 emptyDB = some (Value.int 0) := by
  have h := c2_no_row_absent_null_sum_zero time0 emptyDB
  exact ⟨h.1 rfl, h.2.2.2.2.2.1 rfl, h.2.2.2.2.2.2.1 rfl, h.2.2.2.2.2.2.2 rfl⟩

/-- C3: when the most recent sleep row stores a non-null awake flag, the
exposed value is its negation: stored 1 publishes false, stored 0
publishes true. -/
theorem c3_is_awake_negated (db : DB) (r : SleepSample)
    (h : latestByTimestamp (fun x => x.timestamp) db.sleep = some r) :
    (r.is_awake = some 1 → query_is_awake db = some (Value.bool false)) ∧
    (r.is_awake = some 0 → query_is_awake db = some (Value.bool true)) := by
  constructor <;> intro ha <;> simp [query_is_awake, h, ha, pyTruthyInt]

/-- C3 witness: a store whose latest sleep row stores the awake flag 1
publishes false. -/
theorem c3_witness : query_is_awake db3 = some (Value.bool false) :=
  (c3_is_awake_negated db3 ⟨10, some 1, some 90⟩ (by decide)).1 rfl

/-- C9: for a most recent sleep row with non-null total duration in
minutes, the exposed value is the duration divided by 60 and rounded to 2
decimal places, with 90 minutes giving 1.5 and 125 minutes giving 2.08. -/
theorem c9_sleep_duration_conversion (db : DB) (r : SleepSample) (m : Int)
    (h : latestByTimestamp (fun x => x.timestamp) db.sleep = some r)
    (hm : r.total_duration = some m) :
    query_total_sleep_duration db = some (Value.rat (pyRound2 ((m : ℚ) / 60))) ∧
    pyRound2 ((90 : ℚ) / 60) = 1.5 ∧ pyRound2 ((125 : ℚ) / 60) = 2.08 := by
  refine ⟨by simp [query_total_sleep_duration, h, hm], ?_, ?_⟩
  · have hf : Int.fdiv 150 1 = 150 := by decide
    norm_num [pyRound2, ratFloor, hf]
  · have hf : Int.fdiv 625 3 = 208 := by decide
    norm_num [pyRound2, ratFloor, hf]

/-- C9 witness: a store whose latest sleep row stores 125 minutes
publishes 2.08 hours. -/
theorem c9_witness : query_total_sleep_duration db9 = some (Value.rat 2.08) := by
  have h := c9_sleep_duration_conversion db9 ⟨10, some 0, some 125⟩ 125 (by decide) rfl
  have he : ((125 : Int) : ℚ) / 60 = (125 : ℚ) / 60 := by norm_num
  rw [h.1, he, h.2.2]

/-- A sensor whose extraction entry is present contributes exactly its
state-topic message to the publish pass. -/
theorem publish_mem_of_present (slug : String) (data : List (String × Option Value))
    (sen : Sensor) (hmem : sen ∈ sensors slug) (v : Value)
    (hv : dictGet data sen.unique_id = some v) :
    PubMsg.mk sen.state_topic (pyStr v) 1 false ∈ publish_sensor_data slug data := by
  refine List.mem_filterMap.mpr ⟨sen, hmem, ?_⟩
  rw [hv]
  rfl

/-- Every message the publish pass emits originates from a registry
sensor whose extraction entry is present. -/
theorem publish_mem_src (slug : String) (data : List (String × Option Value))
    (m : PubMsg) (hm : m ∈ publish_sensor_data slug data) :
    ∃ sen, sen ∈ sensors slug ∧ ∃ v, dictGet data sen.unique_id = some v ∧
      m = PubMsg.mk sen.state_topic (pyStr v) 1 false := by
  obtain ⟨sen, hsen, hf⟩ := List.mem_filterMap.mp hm
  cases hv : dictGet data sen.unique_id with
  | none => rw [hv] at hf; cases hf
  | some v =>
    rw [hv] at hf
    injection hf with hf2
    exact ⟨sen, hsen, v, hv, hf2.symm⟩

/-- C10: when the latest sleep row exists but its stored awake flag is
NULL, the is-awake entry is the present value true — which the publish
pass then sends — unlike the sleep-duration query, which maps a NULL
stored value to an absent entry. -/
theorem c10_null_awake_flag_is_true (slug : String) (env : Env) (r : SleepSample)
    (hf : env.fileExists = true) (hc : env.connectOk = true) (hk : env.cursorOk = true)
    (hq : env.queryFails "is_awake" = false)
    (h : latestByTimestamp (fun x => x.timestamp) env.db.sleep = some r)
    (hn : r.is_awake = none) :
    query_is_awake env.db = some (Value.bool true) ∧
    PubMsg.mk ("gadgetbridge/" ++ slug ++ "/is_awake") "True" 1 false ∈
      run_cycle slug env ∧
    (r.total_duration = none → query_total_sleep_duration env.db = none) := by
  have hval : query_is_awake env.db = some (Value.bool true) := by
    simp [query_is_awake, h, hn, pyTruthyInt]
  refine ⟨hval, ?_, fun hd => by simp [query_total_sleep_duration, h, hd]⟩
  have hmem : (⟨"Is Awake", "is_awake", "gadgetbridge/" ++ slug ++ "/is_awake",
      fun _ db => query_is_awake db, none, some "mdi:power-sleep", none,
      some "enum"⟩ : Sensor) ∈ sensors slug := by simp [sensors]
  have hg : get_sensor_data slug env = (sensors slug).map fun s =>
      (s.unique_id, if env.queryFails s.unique_id = true then none
                    else s.query env.time env.db) := by
    simp [get_sensor_data, hf, hc, hk]
  have hd := dictGet_map_registry
    (fun s => if env.queryFails s.unique_id = true then none
              else s.query env.time env.db)
    (sensors slug) (sensors_uid_nodup slug) _ hmem
  have h2 : (if env.queryFails "is_awake" = true then none
             else query_is_awake env.db) = some (Value.bool true) := by
    simp [hq, hval]
  have hdg : dictGet (get_sensor_data slug env) "is_awake" = some (Value.bool true) := by
    rw [hg]
    exact hd.trans h2
  exact publish_mem_of_present slug (get_sensor_data slug env) _ hmem (Value.bool true) hdg

/-- C10 witness: a concrete fully-successful run whose only sleep row has
a NULL awake flag publishes True on the is-awake topic. -/
theorem c10_witness :
    query_is_awake env10.db = some (Value.bool true) ∧
    PubMsg.mk ("gadgetbridge/" ++ "fitness_tracker" ++ "/is_awake") "True" 1 false ∈
      run_cycle "fitness_tracker" env10 := by
  have h := c10_null_awake_flag_is_true "fitness_tracker" env10 ⟨5, none, none⟩
    rfl rfl rfl rfl (by decide) rfl
  exact ⟨h.1, h.2.1⟩

/-- C8 counterexample: a run in which the file exists and the connect
succeeds but `conn.cursor()` raises opens the connection and never closes
it — the claim's "closed exactly once on every execution path, including
paths where post-connect setup fails" is false on this input. -/
theorem c8_counterexample :
    gsd_opens envCursorFail = 1 ∧ gsd_closes envCursorFail = 0 := by decide

/-- C8 amended: a run that opens a connection closes it exactly once
provided `conn.cursor()` succeeds; when cursor creation fails, the
connection is never closed. -/
theorem c8_close_once_when_cursor_ok (env : Env) (hopen : gsd_opens env = 1) :
    (env.cursorOk = true → gsd_closes env = 1) ∧
    (env.cursorOk = false → gsd_closes env = 0) := by
  simp only [gsd_opens, Bool.and_eq_true] at hopen
  have hfc : env.fileExists = true ∧ env.connectOk = true := by
    by_cases hb : env.fileExists = true ∧ env.connectOk = true
    · exact hb
    · rw [if_neg (by simpa using hb)] at hopen
      cases hopen
  constructor <;> intro hk <;> simp [gsd_closes, hfc.1, hfc.2, hk]

/-- C8 witness: a fully-successful run closes the connection exactly
once. -/
theorem c8_witness : gsd_closes envAllOk = 1 :=
  (c8_close_once_when_cursor_ok envAllOk (by decide)).1 rfl

/-- C6: the publish cycle emits exactly the sensors whose extraction
entry is present — each present value as its canonical string on its own
state topic with the retained flag cleared — and a sensor with an absent
entry contributes no message at all (in particular nothing to its topic). -/
theorem c6_publish_exactly_present (slug : String)
    (data : List (String × Option Value)) :
    (∀ m ∈ publish_sensor_data slug data, m.retain = false) ∧
    (∀ sen ∈ sensors slug, ∀ v, dictGet data sen.unique_id = some v →
      PubMsg.mk sen.state_topic (pyStr v) 1 false ∈ publish_sensor_data slug data) ∧
    (∀ sen ∈ sensors slug, dictGet data sen.unique_id = none →
      ∀ m ∈ publish_sensor_data slug data, m.topic ≠ sen.state_topic) ∧
    (∀ m ∈ publish_sensor_data slug data, ∃ sen, sen ∈ sensors slug ∧ ∃ v,
      dictGet data sen.unique_id = some v ∧
      m = PubMsg.mk sen.state_topic (pyStr v) 1 false) := by
  refine ⟨?_, ?_, ?_, publish_mem_src slug data⟩
  · intro m hm
    obtain ⟨sen, _, v, _, hmk⟩ := publish_mem_src slug data m hm
    rw [hmk]
  · intro sen hmem v hv
    exact publish_mem_of_present slug data sen hmem v hv
  · intro sen hmem hnone m hm htop
    obtain ⟨sen2, hmem2, v, hv, hmk⟩ := publish_mem_src slug data m hm
    have htopic : sen2.state_topic = sen.state_topic := by
      rw [hmk] at htop
      exact htop
    have hsame : sen2 = sen :=
      List.inj_on_of_nodup_map (sensors_topic_nodup slug) hmem2 hmem htopic
    rw [hsame, hnone] at hv
    cases hv

/-- C6 witness: with daily steps present and the battery entry absent,
the daily message is published and no message targets the battery topic. -/
theorem c6_witness :
    PubMsg.mk ("gadgetbridge/" ++ "d" ++ "/steps/daily") "5" 1 false ∈
      publish_sensor_data "d" dataW ∧
    ∀ m ∈ publish_sensor_data "d" dataW,
      m.topic ≠ "gadgetbridge/" ++ "d" ++ "/battery" := by
  constructor
  · exact (c6_publish_exactly_present "d" dataW).2.1
      ⟨"Daily Steps", "daily_steps", "gadgetbridge/" ++ "d" ++ "/steps/daily",
       query_daily_steps, some "steps", some "mdi:walk", some "total_increasing", none⟩
      (by simp [sensors]) (Value.int 5) (by decide)
  · exact (c6_publish_exactly_present "d" dataW).2.2.1
      ⟨"Battery Level", "battery_level", "gadgetbridge/" ++ "d" ++ "/battery",
       fun _ db => query_battery_level db, some "%", some "mdi:battery", none,
       some "battery"⟩
      (by simp [sensors]) (by decide)

/-- C7: the discovery pass is a deterministic function of the registry
and slug — two invocations with an unchanged slug (hence unchanged
registry) produce equal message lists, and any two messages on matching
topics carry byte-identical payloads. -/
theorem c7_discovery_idempotent (s1 s2 : String) (h : s1 = s2) :
    setup_home_assistant_entities s1 = setup_home_assistant_entities s2 ∧
    ∀ m1 ∈ setup_home_assistant_entities s1, ∀ m2 ∈ setup_home_assistant_entities s2,
      m1.topic = m2.topic → m1.payload = m2.payload := by
  subst h
  refine ⟨rfl, ?_⟩
  intro m1 h1 m2 h2 ht
  have hsame : m1 = m2 :=
    List.inj_on_of_nodup_map (setup_topics_nodup s1) h1 h2 ht
  rw [hsame]

/-- C7 witness: the discovery pass over the fallback slug, repeated. -/
theorem c7_witness :
    setup_home_assistant_entities "fitness_tracker" =
      setup_home_assistant_entities "fitness_tracker" ∧
    ∀ m1 ∈ setup_home_assistant_entities "fitness_tracker",
      ∀ m2 ∈ setup_home_assistant_entities "fitness_tracker",
        m1.topic = m2.topic → m1.payload = m2.payload :=
  c7_discovery_idempotent "fitness_tracker" "fitness_tracker" rfl

/-- C5 counterexample: the claim's rule "collapse each run of
non-alphanumeric characters to a single separator" fails on the alias
`a_!b` — the code's word-character class leaves underscores untouched, so
the resolver returns `a__b` where the claimed rule yields `a_b`. -/
theorem c5_counterexample :
    get_device_alias true true db5 = "a__b" ∧
    specSanitizeAlias "a_!b" = "a_b" ∧
    get_device_alias true true db5 ≠ specSanitizeAlias "a_!b" := by
  refine ⟨by decide, by decide, by decide⟩

/-- C5 amended: the resolved slug collapses each run of characters that
are neither alphanumeric nor underscore to a single separator and
lowercases the result (underscores pass through unchanged), with
`"Mi Band 7!"` still yielding `mi_band_7_`; a missing file, a raising
connect-or-query block, no matching device row, and a NULL or empty alias
all return the fallback slug `fitness_tracker`, and the resolver is a
total function, so it never raises. -/
theorem c5_device_slug_resolution (db : DB) (row : DeviceRow) (a : String) :
    (get_device_alias false true db = "fitness_tracker") ∧
    (get_device_alias true false db = "fitness_tracker") ∧
    (db.device.find? deviceNameMatches = none →
      get_device_alias true true db = "fitness_tracker") ∧
    (db.device.find? deviceNameMatches = some row → row.aliasStr = none →
      get_device_alias true true db = "fitness_tracker") ∧
    (db.device.find? deviceNameMatches = some row → row.aliasStr = some "" →
      get_device_alias true true db = "fitness_tracker") ∧
    (db.device.find? deviceNameMatches = some row → row.aliasStr = some a → a ≠ "" →
      get_device_alias true true db = sanitizeAlias a) ∧
    sanitizeAlias "Mi Band 7!" = "mi_band_7_" := by
  refine ⟨rfl, rfl, ?_, ?_, ?_, ?_, by decide⟩
  · intro h
    simp [get_device_alias, h]
  · intro h hn
    simp [get_device_alias, h, hn]
  · intro h hn
    simp [get_device_alias, h, hn]
  · intro h hn hne
    simp [get_device_alias, h, hn, hne]

/-- C5 witness: a matching device row with alias `Mi Band 7!` resolves to
the slug `mi_band_7_`. -/
theorem c5_witness : get_device_alias true true db5w = "mi_band_7_" := by
  have h := c5_device_slug_resolution db5w ⟨some "Mi Band 7", some "Mi Band 7!"⟩
    "Mi Band 7!"
  rw [h.2.2.2.2.2.1 (by decide) rfl (by decide)]
  exact h.2.2.2.2.2.2

/-- C4 counterexample: with exactly one activity sample at today's
midnight holding 500 steps and no other rows, the cycle DOES publish 500
to the weekly and monthly step topics (their sums also cover the sample),
so the claim's "publishes nothing to the weekly and monthly step topics"
is false on this input. -/
theorem c4_counterexample :
    PubMsg.mk ("gadgetbridge/" ++ "fitness_tracker" ++ "/steps/weekly") "500" 1 false ∈
      run_cycle (get_device_alias true true db4) env4 ∧
    PubMsg.mk ("gadgetbridge/" ++ "fitness_tracker" ++ "/steps/monthly") "500" 1 false ∈
      run_cycle (get_device_alias true true db4) env4 := by
  decide

/-- C4 amended: for the single-sample store (sample at today's midnight,
500 steps, NULL heart rate, every other table empty), a full cycle's
output is exactly three messages — 500 to the daily, weekly and monthly
step topics — and in particular nothing is published to the battery,
weight or any heart-rate topic. -/
theorem c4_single_sample_cycle (slug : String) (t : Time)
    (h1 : t.todayStart ≤ t.todayEnd) (h2 : t.weekStart ≤ t.todayStart)
    (h3 : t.monthStart ≤ t.todayStart) :
    run_cycle slug ⟨true, true, true, fun _ => false, t,
      ⟨[⟨t.todayStart, some 500, none⟩], [], [], [], [], []⟩⟩ =
    [PubMsg.mk ("gadgetbridge/" ++ slug ++ "/steps/daily") "500" 1 false,
     PubMsg.mk ("gadgetbridge/" ++ slug ++ "/steps/weekly") "500" 1 false,
     PubMsg.mk ("gadgetbridge/" ++ slug ++ "/steps/monthly") "500" 1 false] := by
  have hdq : query_daily_steps t ⟨[⟨t.todayStart, some 500, none⟩], [], [], [], [], []⟩ =
      some (Value.int 500) := by
    simp [query_daily_steps, sqlSum, pyOrZero, h1]
  have hwq : query_weekly_steps t ⟨[⟨t.todayStart, some 500, none⟩], [], [], [], [], []⟩ =
      some (Value.int 500) := by
    simp [query_weekly_steps, sqlSum, pyOrZero, h2]
  have hmq : query_monthly_steps t ⟨[⟨t.todayStart, some 500, none⟩], [], [], [], [], []⟩ =
      some (Value.int 500) := by
    simp [query_monthly_steps, sqlSum, pyOrZero, h3]
  have hge : get_sensor_data slug ⟨true, true, true, fun _ => false, t,
      ⟨[⟨t.todayStart, some 500, none⟩], [], [], [], [], []⟩⟩ =
      (sensors slug).map
        (fun s => (s.unique_id,
          s.query t ⟨[⟨t.todayStart, some 500, none⟩], [], [], [], [], []⟩)) := by
    simp [get_sensor_data]
  have hlist : (sensors slug).map
      (fun s => (s.unique_id,
        s.query t ⟨[⟨t.todayStart, some 500, none⟩], [], [], [], [], []⟩)) =
      [("daily_steps", some (Value.int 500)), ("weekly_steps", some (Value.int 500)),
       ("monthly_steps", some (Value.int 500)), ("battery_level", none),
       ("weight", none), ("latest_heart_rate", none), ("hr_resting", none),
       ("hr_max", none), ("hr_avg", none), ("calories", none), ("is_awake", none),
       ("total_sleep_duration", none)] := by
    simp [sensors, hdq, hwq, hmq, query_battery_level, query_latest_weight,
          query_latest_heart_rate, query_hr_resting, query_hr_max, query_hr_avg,
          query_calories, query_is_awake, query_total_sleep_duration,
          latestByTimestamp]
  rw [run_cycle, hge, hlist]
  rfl

/-- C4 amended witness: the amended cycle at concrete clock bounds. -/
theorem c4_witness :
    run_cycle "fitness_tracker" ⟨true, true, true, fun _ => false, time4,
      ⟨[⟨time4.todayStart, some 500, none⟩], [], [], [], [], []⟩⟩ =
    [PubMsg.mk ("gadgetbridge/" ++ "fitness_tracker" ++ "/steps/daily") "500" 1 false,
     PubMsg.mk ("gadgetbridge/" ++ "fitness_tracker" ++ "/steps/weekly") "500" 1 false,
     PubMsg.mk ("gadgetbridge/" ++ "fitness_tracker" ++ "/steps/monthly") "500" 1
       false] :=
  c4_single_sample_cycle "fitness_tracker" time4 (by decide) (by decide) (by decide)
